import Mathlib

/-!
Shallow embedding of the conversation turn orchestration in
`homeassistant/components/openai_conversation/conversation.py`.

External collaborators (the ULID validator/generator, the platform's
`llm.async_get_api`, the `voluptuous_openapi.convert` serializer, the
template engine, the user registry and the remote OpenAI client) are
modelled as components of an environment record `Env`; the orchestration
code itself is translated function by function.  Calls to the remote
model and to the capability provider are instrumented: the outcome of a
turn carries the list of completion requests issued, the list of
capability-API lookups and the list of template renders, so that claims
about "how many calls happened" are stateable.

The options dictionary `entry.options` is modelled with `Option` fields
(`none` = key absent), matching Python's `dict.get(key, default)`.
Python truthiness of optional strings (`None` and `""` are falsy) is
`pytruthy`.  Floating point generation parameters carry no arithmetic in
this code, so they are embedded as rationals.
-/

namespace OpenAIConv

/-- One transcript entry: role, content, and the tool invocations an
assistant message may request. -/
structure Message where
  role : String
  content : String
  tool_calls : List String
deriving DecidableEq, Repr

/-- A platform tool descriptor (`llm.Tool`): name, optional free-text
description, native parameter schema of type `α`. -/
structure Tool (α : Type) where
  name : String
  description : Option String
  parameters : α
deriving DecidableEq, Repr

/-- The wire function definition built by `_format_tool`; the
`description` key is `none` when it was not set at all. -/
structure FunctionDefinition (β : Type) where
  name : String
  parameters : β
  description : Option String
deriving DecidableEq, Repr

/-- The wire tool parameter (`type="function"` wrapper). -/
structure ChatCompletionToolParam (β : Type) where
  type : String
  function : FunctionDefinition β
deriving DecidableEq, Repr

/-- Python truthiness of an optional string: `None` and `""` are falsy. -/
def pytruthy : Option String → Bool
  | none => false
  | some s => !(s == "")

/-- Embedding of `_format_tool`: build the function definition from the
tool's name and converted parameters, then set the description key only
when `tool.description` is truthy. -/
def _format_tool {α β σ : Type} (convert : α → σ → β)
    (tool : Tool α) (custom_serializer : σ) : ChatCompletionToolParam β :=
  { type := "function"
    function :=
      { name := tool.name
        parameters := convert tool.parameters custom_serializer
        description :=
          if pytruthy tool.description then tool.description else none } }

/-- The host `Context` attached to a conversation input. -/
structure HAContext where
  user_id : Option String
deriving DecidableEq, Repr

/-- The `llm.LLMContext` value object. -/
structure LLMContext where
  platform : String
  context : Option HAContext
  user_prompt : String
  language : String
  assistant : String
  device_id : Option String
deriving DecidableEq, Repr

/-- A `conversation.ConversationInput`. -/
structure ConversationInput where
  text : String
  conversation_id : Option String
  language : String
  context : Option HAContext
  device_id : Option String
deriving DecidableEq, Repr

/-- The integration domain constant. -/
def DOMAIN : String := "openai_conversation"

/-- `conversation.DOMAIN`, the assistant name put into the LLM context. -/
def CONVERSATION_DOMAIN : String := "conversation"

/-- The capability API instance returned by `llm.async_get_api`:
tools, the provider-supplied custom serializer, and a prompt fragment. -/
structure LlmApiInstance (α σ : Type) where
  tools : List (Tool α)
  custom_serializer : σ
  api_prompt : String

/-- An `intent.IntentResponse`: its language and its error state
(code, message) as set by `async_set_error`; `none` = no error. -/
structure IntentResponse where
  language : String
  error : Option (String × String)
deriving DecidableEq, Repr

/-- A `conversation.ConversationResult`. -/
structure ConversationResult where
  response : IntentResponse
  conversation_id : String
deriving DecidableEq, Repr

/-- Embedding of `_create_conversation_result`. -/
def _create_conversation_result (intent_response : IntentResponse)
    (conversation_id : String) : ConversationResult :=
  { response := intent_response, conversation_id := conversation_id }

/-- `entry.options` with `none` marking an absent key. -/
structure EntryOptions where
  llm_hass_api : Option String
  prompt : Option String
  chat_model : Option String
  max_tokens : Option Nat
  top_p : Option Rat
  temperature : Option Rat
deriving DecidableEq, Repr

/-- The `RECOMMENDED_*` fallback constants from `const.py` (their
concrete values are outside the embedded module, so they are carried
abstractly in the environment). -/
structure RecommendedDefaults where
  chat_model : String
  max_tokens : Nat
  top_p : Rat
  temperature : Rat
deriving DecidableEq, Repr

/-- The variables dictionary handed to the template engine by
`_generate_prompt`. -/
structure RenderVars where
  ha_name : String
  user_name : Option String
  llm_context : LLMContext
deriving DecidableEq, Repr

/-- A registered user as returned by `hass.auth.async_get_user`. -/
structure HAUser where
  name : Option String
deriving DecidableEq, Repr

/-- The argument record of one `client.chat.completions.create` call;
`tools = none` embeds the `NOT_GIVEN` sentinel. -/
structure CompletionRequest (β : Type) where
  model : String
  messages : List Message
  tools : Option (List (ChatCompletionToolParam β))
  max_tokens : Nat
  top_p : Rat
  temperature : Rat
  user : String
deriving DecidableEq, Repr

/-- The environment of external collaborators one turn runs against.
`ulid_check s = true` means `ulid.ulid_to_bytes s` succeeds, and
`ulid_now` is the identifier `ulid.ulid_now()` would generate this
turn.  Errors carried by `Except` are the exception messages. -/
structure Env (α β σ : Type) where
  ulid_check : String → Bool
  ulid_now : String
  get_api : String → LLMContext → Except String (LlmApiInstance α σ)
  convert : α → σ → β
  render : String → RenderVars → Except String String
  get_user : String → Option HAUser
  client : CompletionRequest β → Except String Message
  location_name : String
  base_prompt : String
  default_instructions : String
  recommended : RecommendedDefaults

/-- The conversation session store `self.history`, an association list
keyed by conversation id; the head binding for a key wins. -/
abbrev History : Type := List (String × List Message)

/-- `history.get(k, [])`. -/
def historyGet (h : History) (k : String) : List Message :=
  (List.lookup k h).getD []

/-- `history[k] = v`: bind `k` to `v`, dropping any previous binding. -/
def historySet (h : History) (k : String) (v : List Message) : History :=
  (k, v) :: List.filter (fun p => !(p.1 == k)) h

variable {α β σ : Type}

/-- Embedding of `_handle_invalid_conversation_id`: take the supplied id
(or `""` when falsy); if it parses as a ULID return a freshly generated
id, otherwise (the `ValueError` branch) return the supplied id. -/
def _handle_invalid_conversation_id (env : Env α β σ)
    (user_input : ConversationInput) : String :=
  let conversation_id := user_input.conversation_id.getD ""
  if env.ulid_check conversation_id then env.ulid_now else conversation_id

/-- Embedding of `_initialize_conversation`: resolve the id and load its
transcript from the store (empty when absent). -/
def _initialize_conversation (env : Env α β σ) (history : History)
    (user_input : ConversationInput) : String × List Message :=
  let conversation_id := _handle_invalid_conversation_id env user_input
  (conversation_id, historyGet history conversation_id)

/-- The `llm.LLMContext(...)` built (twice, identically) in
`_setup_llm_api` and `_generate_prompt`. -/
def makeLLMContext (user_input : ConversationInput) : LLMContext :=
  { platform := DOMAIN
    context := user_input.context
    user_prompt := user_input.text
    language := user_input.language
    assistant := CONVERSATION_DOMAIN
    device_id := user_input.device_id }

/-- Outcome of `_setup_llm_api`: the api and formatted tools (or `none`),
the error state written into the intent response, and the instrumented
list of capability-API lookups issued. -/
structure SetupResult (α β σ : Type) where
  llm_api : Option (LlmApiInstance α σ)
  tools : Option (List (ChatCompletionToolParam β))
  error : Option (String × String)
  api_calls : List (String × LLMContext)

/-- Embedding of `_setup_llm_api`: when the options name a capability
API, look it up; on success format every tool with the api's own custom
serializer; on `HomeAssistantError` set the error state. -/
def _setup_llm_api (env : Env α β σ) (options : EntryOptions)
    (user_input : ConversationInput) : SetupResult α β σ :=
  if pytruthy options.llm_hass_api then
    let apiId := options.llm_hass_api.getD ""
    let ctx := makeLLMContext user_input
    match env.get_api apiId ctx with
    | Except.ok llm_api =>
        { llm_api := some llm_api
          tools := some (llm_api.tools.map (fun tool =>
            _format_tool env.convert tool llm_api.custom_serializer))
          error := none
          api_calls := [(apiId, ctx)] }
    | Except.error err =>
        { llm_api := none
          tools := none
          error := some ("unknown", "Error preparing LLM API: " ++ err)
          api_calls := [(apiId, ctx)] }
  else
    { llm_api := none, tools := none, error := none, api_calls := [] }

/-- Embedding of `_get_user_name`: look the invoking user up only when
the input carries a context with a truthy user id. -/
def _get_user_name (env : Env α β σ) (user_input : ConversationInput) :
    Option String :=
  match user_input.context with
  | some ctx =>
      if pytruthy ctx.user_id then
        match env.get_user (ctx.user_id.getD "") with
        | some user => user.name
        | none => none
      else none
  | none => none

/-- Outcome of `_generate_prompt`: the prompt (`none` both on a template
error and on the implicit fall-through when no api was passed), the
error state, and the instrumented list of template renders issued. -/
structure PromptResult where
  prompt : Option String
  error : Option (String × String)
  render_calls : List (String × RenderVars)

/-- Embedding of `_generate_prompt`: render the base prompt plus the
configured (or default) instructions; on success, when an api is
present, join the rendered text with the api prompt fragment by a
newline; on `TemplateError` set the error state and yield no prompt.
When no api is present the function falls through and yields no prompt
and no error. -/
def _generate_prompt (env : Env α β σ) (options : EntryOptions)
    (user_input : ConversationInput)
    (llm_api : Option (LlmApiInstance α σ)) : PromptResult :=
  let user_name := _get_user_name env user_input
  let templ := env.base_prompt ++ options.prompt.getD env.default_instructions
  let vars : RenderVars :=
    { ha_name := env.location_name
      user_name := user_name
      llm_context := makeLLMContext user_input }
  match env.render templ vars with
  | Except.error err =>
      { prompt := none
        error := some ("unknown", "Sorry, I had a problem with my template: " ++ err)
        render_calls := [(templ, vars)] }
  | Except.ok rendered =>
      match llm_api with
      | some api =>
          { prompt := some (String.intercalate "\n" [rendered, api.api_prompt])
            error := none
            render_calls := [(templ, vars)] }
      | none =>
          { prompt := none, error := none, render_calls := [(templ, vars)] }

/-- The bound on the tool-calling loop (`MAX_TOOL_ITERATIONS`). -/
def MAX_TOOL_ITERATIONS : Nat := 10

/-- Outcome of `_generate_response` (and of a whole turn): the result
(`none` models the `return None` after an exhausted loop), the updated
session store, and the instrumented list of completion requests issued. -/
structure TurnOutcome (β : Type) where
  result : Option ConversationResult
  history : History
  requests : List (CompletionRequest β)

/-- The argument record of the `client.chat.completions.create` call in
`_generate_response`: each generation parameter falls back to its
recommended default when the per-entry option is absent, the loaded
transcript is passed as-is, an empty or absent tool list becomes the
`NOT_GIVEN` sentinel (`tools or NOT_GIVEN`), and the request's `user`
correlation token is the resolved conversation id. -/
def _completion_request (env : Env α β σ) (options : EntryOptions)
    (conversation_id : String) (messages : List Message)
    (tools : Option (List (ChatCompletionToolParam β))) :
    CompletionRequest β :=
  { model := options.chat_model.getD env.recommended.chat_model
    messages := messages
    tools :=
      match tools with
      | some ts => if ts.isEmpty then none else some ts
      | none => none
    max_tokens := options.max_tokens.getD env.recommended.max_tokens
    top_p := options.top_p.getD env.recommended.top_p
    temperature := options.temperature.getD env.recommended.temperature
    user := conversation_id }

/-- The loop of `_generate_response` with its fuel.  Every control path
of the loop body returns (success appends the returned message, stores
the transcript and returns the result; `OpenAIError` sets the error
state and returns), so the successor case never recurses; with fuel `0`
the loop is skipped and the trailing `return None` is reached. -/
def _generate_response_loop (env : Env α β σ) (options : EntryOptions)
    (conversation_id : String) (messages : List Message)
    (tools : Option (List (ChatCompletionToolParam β)))
    (intent_response : IntentResponse) (history : History) :
    Nat → TurnOutcome β
  | 0 => { result := none, history := history, requests := [] }
  | Nat.succ _ =>
      let req := _completion_request env options conversation_id messages tools
      match env.client req with
      | Except.ok response =>
          let messages2 := messages ++ [response]
          { result := some (_create_conversation_result intent_response conversation_id)
            history := historySet history conversation_id messages2
            requests := [req] }
      | Except.error _e =>
          { result := some (_create_conversation_result
              { intent_response with
                error := some ("unknown",
                  "An error occurred while generating the response.") }
              conversation_id)
            history := history
            requests := [req] }

/-- Embedding of `_generate_response`.  The `user_input` and `prompt`
parameters are part of the signature but, as in the source, unread by
the body. -/
def _generate_response (env : Env α β σ) (options : EntryOptions)
    (user_input : ConversationInput) (conversation_id : String)
    (messages : List Message) (prompt : String)
    (tools : Option (List (ChatCompletionToolParam β)))
    (intent_response : IntentResponse) (history : History) :
    TurnOutcome β :=
  _generate_response_loop env options conversation_id messages tools
    intent_response history MAX_TOOL_ITERATIONS

/-- Outcome of `async_process`: result, updated store, and the
instrumented traces of completion requests, capability-API lookups and
template renders. -/
structure ProcessOutcome (β : Type) where
  result : Option ConversationResult
  history : History
  requests : List (CompletionRequest β)
  api_calls : List (String × LLMContext)
  render_calls : List (String × RenderVars)
deriving Repr

/-- Embedding of `async_process`: resolve the conversation id and load
its transcript, set up the capability API, return early when there is no
api (whether unconfigured or failed), render the prompt, return early
when it yields none, then run the completion loop. -/
def async_process (env : Env α β σ) (options : EntryOptions)
    (history : History) (user_input : ConversationInput) :
    ProcessOutcome β :=
  let init := _initialize_conversation env history user_input
  let conversation_id := init.1
  let messages := init.2
  let intent_response : IntentResponse :=
    { language := user_input.language, error := none }
  let setup := _setup_llm_api env options user_input
  let intent_response1 : IntentResponse :=
    match setup.error with
    | some e => { intent_response with error := some e }
    | none => intent_response
  match setup.llm_api with
  | none =>
      { result := some (_create_conversation_result intent_response1 conversation_id)
        history := history
        requests := []
        api_calls := setup.api_calls
        render_calls := [] }
  | some llm_api =>
      let pr := _generate_prompt env options user_input (some llm_api)
      let intent_response2 : IntentResponse :=
        match pr.error with
        | some e => { intent_response1 with error := some e }
        | none => intent_response1
      match pr.prompt with
      | none =>
          { result := some (_create_conversation_result intent_response2 conversation_id)
            history := history
            requests := []
            api_calls := setup.api_calls
            render_calls := pr.render_calls }
      | some prompt =>
          let out := _generate_response env options user_input conversation_id
            messages prompt setup.tools intent_response2 history
          { result := out.result
            history := out.history
            requests := out.requests
            api_calls := setup.api_calls
            render_calls := pr.render_calls }

/-! Concrete fixtures used to evaluate the embedded code on closed
inputs: a small environment with a happy-path collaborator set and
variants in which exactly one collaborator fails. -/

/-- A user message sitting in a stored transcript. -/
def msgU : Message := { role := "user", content := "hi", tool_calls := [] }

/-- The assistant message the happy-path client returns. -/
def msgA : Message := { role := "assistant", content := "done", tool_calls := [] }

/-- A concrete platform tool. -/
def toolT : Tool String :=
  { name := "test_tool", description := some "Test tool", parameters := "SCHEMA" }

/-- A concrete capability API instance. -/
def apiT : LlmApiInstance String String :=
  { tools := [toolT], custom_serializer := "SERIALIZER", api_prompt := "API FRAGMENT" }

/-- Concrete recommended generation defaults. -/
def recC : RecommendedDefaults :=
  { chat_model := "gpt-4o", max_tokens := 150, top_p := 1, temperature := 1 }

/-- A syntactically valid 26-character ULID. -/
def validId : String := "01ARZ3NDEKTSV4RRFFQ69G5FAV"

/-- Happy-path environment: the ULID check accepts exactly the
26-character strings, every collaborator succeeds. -/
def envC : Env String String String :=
  { ulid_check := fun s => s.length == 26
    ulid_now := "01BTTTTTTTTTTTTTTTTTTTTTTT"
    get_api := fun _ _ => Except.ok apiT
    convert := fun p s => p ++ ":" ++ s
    render := fun t _ => Except.ok ("R[" ++ t ++ "]")
    get_user := fun _ => none
    client := fun _ => Except.ok msgA
    location_name := "Home"
    base_prompt := "BASE;"
    default_instructions := "INSTR"
    recommended := recC }

/-- Environment in which the capability-API lookup raises. -/
def envApiErr : Env String String String :=
  { envC with get_api := fun _ _ => Except.error "quota exceeded" }

/-- Environment in which the remote model client raises. -/
def envClientErr : Env String String String :=
  { envC with client := fun _ => Except.error "rate limited" }

/-- Environment in which template rendering raises. -/
def envRenderErr : Env String String String :=
  { envC with render := fun _ _ => Except.error "undefined variable" }

/-- Options naming a capability API, everything else unset. -/
def optsC : EntryOptions :=
  { llm_hass_api := some "assist", prompt := none, chat_model := none
    max_tokens := none, top_p := none, temperature := none }

/-- Options with no capability API configured. -/
def optsNoApi : EntryOptions := { optsC with llm_hass_api := none }

/-- Options overriding all four generation parameters. -/
def optsFull : EntryOptions :=
  { llm_hass_api := some "assist", prompt := some "Custom instructions"
    chat_model := some "gpt-custom", max_tokens := some 512
    top_p := some (7 / 10 : Rat), temperature := some (3 / 10 : Rat) }

/-- An input whose caller-supplied conversation id fails ULID parsing. -/
def inputBad : ConversationInput :=
  { text := "turn on the kitchen lights", conversation_id := some "bad-id"
    language := "en", context := none, device_id := none }

/-- The same input with a caller-supplied id that parses as a ULID. -/
def inputValid : ConversationInput := { inputBad with conversation_id := some validId }

/-- A store holding a transcript under the invalid id. -/
def histBad : History := [("bad-id", [msgU])]

/-- A store holding a transcript under the valid ULID. -/
def histValid : History := [(validId, [msgU])]

/-- A tool with no description at all. -/
def toolNoDesc : Tool String :=
  { name := "bare_tool", description := none, parameters := "S2" }

/-- A tool with an empty-string description. -/
def toolEmptyDesc : Tool String :=
  { name := "empty_desc_tool", description := some "", parameters := "S3" }

/-- A store whose transcripts hold only assistant messages. -/
def histAssist : History := [("bad-id", [msgA])]

end OpenAIConv

namespace OpenAIConv

theorem historyGet_historySet_self (h : History) (k : String) (v : List Message) :
    historyGet (historySet h k v) k = v := by
  simp [historyGet, historySet, List.lookup]

theorem lookup_mem {h : History} {k : String} {v : List Message}
    (hl : List.lookup k h = some v) : (k, v) ∈ h := by
  induction h with
  | nil => simp [List.lookup] at hl
  | cons p t ih =>
      obtain ⟨a, b⟩ := p
      rw [List.lookup] at hl
      by_cases hk : (k == a) = true
      · rw [hk] at hl
        simp at hl
        subst hl
        have : k = a := by simpa using hk
        subst this
        exact List.mem_cons_self _ _
      · rw [Bool.not_eq_true] at hk
        rw [hk] at hl
        exact List.mem_cons_of_mem _ (ih hl)

theorem mem_of_mem_historyGet {h : History} {k : String} {m : Message}
    (hm : m ∈ historyGet h k) : ∃ p ∈ h, m ∈ p.2 := by
  unfold historyGet at hm
  cases hl : List.lookup k h with
  | none => rw [hl] at hm; simp at hm
  | some v =>
      rw [hl] at hm
      exact ⟨(k, v), lookup_mem hl, hm⟩

theorem mem_of_mem_historySet {h : History} {k : String} {v : List Message}
    {p : String × List Message} (hp : p ∈ historySet h k v) :
    p = (k, v) ∨ p ∈ h := by
  unfold historySet at hp
  rcases List.mem_cons.mp hp with h1 | h2
  · exact Or.inl h1
  · exact Or.inr (List.mem_of_mem_filter h2)

theorem async_process_shape (env : Env α β σ) (opts : EntryOptions)
    (hist : History) (input : ConversationInput) :
    ∃ ir : IntentResponse,
      (async_process env opts hist input).result =
        some { response := ir,
               conversation_id := _handle_invalid_conversation_id env input } ∧
      (((async_process env opts hist input).history = hist ∧
        (async_process env opts hist input).requests = []) ∨
       (∃ tools resp,
          env.client (_completion_request env opts
            (_handle_invalid_conversation_id env input)
            (historyGet hist (_handle_invalid_conversation_id env input)) tools) =
              Except.ok resp ∧
          (async_process env opts hist input).history =
            historySet hist (_handle_invalid_conversation_id env input)
              (historyGet hist (_handle_invalid_conversation_id env input) ++ [resp]) ∧
          (async_process env opts hist input).requests =
            [_completion_request env opts (_handle_invalid_conversation_id env input)
              (historyGet hist (_handle_invalid_conversation_id env input)) tools]) ∨
       (∃ tools e,
          env.client (_completion_request env opts
            (_handle_invalid_conversation_id env input)
            (historyGet hist (_handle_invalid_conversation_id env input)) tools) =
              Except.error e ∧
          (async_process env opts hist input).history = hist ∧
          (async_process env opts hist input).requests =
            [_completion_request env opts (_handle_invalid_conversation_id env input)
              (historyGet hist (_handle_invalid_conversation_id env input)) tools])) := by
  simp only [async_process, _initialize_conversation, _generate_response,
    _generate_response_loop, MAX_TOOL_ITERATIONS]
  split
  · exact ⟨_, rfl, Or.inl ⟨rfl, rfl⟩⟩
  · split
    · exact ⟨_, rfl, Or.inl ⟨rfl, rfl⟩⟩
    · split
      · rename_i resp hresp
        exact ⟨_, rfl, Or.inr (Or.inl ⟨_, resp, hresp, rfl, rfl⟩)⟩
      · rename_i e he
        exact ⟨_, rfl, Or.inr (Or.inr ⟨_, e, he, rfl, rfl⟩)⟩

end OpenAIConv

namespace OpenAIConv

theorem intercalate_pair (a b : String) :
    String.intercalate "\n" [a, b] = a ++ "\n" ++ b := rfl

theorem setup_ok_eq (env : Env α β σ) (opts : EntryOptions)
    (input : ConversationInput) (apiId : String) (api : LlmApiInstance α σ)
    (hapi : opts.llm_hass_api = some apiId) (hne : apiId ≠ "")
    (hok : env.get_api apiId (makeLLMContext input) = Except.ok api) :
    _setup_llm_api env opts input =
      { llm_api := some api
        tools := some (api.tools.map (fun tool =>
          _format_tool env.convert tool api.custom_serializer))
        error := none
        api_calls := [(apiId, makeLLMContext input)] } := by
  have hb : (apiId == "") = false := by simpa using hne
  simp [_setup_llm_api, hapi, pytruthy, hb, hok]

theorem setup_err_eq (env : Env α β σ) (opts : EntryOptions)
    (input : ConversationInput) (apiId e : String)
    (hapi : opts.llm_hass_api = some apiId) (hne : apiId ≠ "")
    (herr : env.get_api apiId (makeLLMContext input) = Except.error e) :
    _setup_llm_api env opts input =
      { llm_api := none
        tools := none
        error := some ("unknown", "Error preparing LLM API: " ++ e)
        api_calls := [(apiId, makeLLMContext input)] } := by
  have hb : (apiId == "") = false := by simpa using hne
  simp [_setup_llm_api, hapi, pytruthy, hb, herr]

theorem generate_response_eq (env : Env α β σ) (opts : EntryOptions)
    (input : ConversationInput) (cid : String) (msgs : List Message)
    (prompt : String) (tools : Option (List (ChatCompletionToolParam β)))
    (ir : IntentResponse) (hist : History) :
    _generate_response env opts input cid msgs prompt tools ir hist =
      (match env.client (_completion_request env opts cid msgs tools) with
       | Except.ok response =>
          { result := some (_create_conversation_result ir cid)
            history := historySet hist cid (msgs ++ [response])
            requests := [_completion_request env opts cid msgs tools] }
       | Except.error _ =>
          { result := some (_create_conversation_result
              { ir with error := some ("unknown",
                  "An error occurred while generating the response.") } cid)
            history := hist
            requests := [_completion_request env opts cid msgs tools] }) := rfl

/-- Claim C1 (amended): for every caller-supplied conversation id that
fails ULID validation, `async_process` silently keeps the caller's id
and loads the transcript stored under it (empty when absent), and always
yields a result carrying that id — no validation error reaches the
caller; a fresh id is substituted only when validation passes. -/
theorem C1_invalid_id_kept (env : Env α β σ) (opts : EntryOptions)
    (hist : History) (input : ConversationInput) (c : String)
    (hid : input.conversation_id = some c)
    (hchk : env.ulid_check c = false) :
    _initialize_conversation env hist input = (c, historyGet hist c) ∧
    (∃ r, (async_process env opts hist input).result = some r) ∧
    (∀ r, (async_process env opts hist input).result = some r →
       r.conversation_id = c) := by
  have hcid : _handle_invalid_conversation_id env input = c := by
    simp [_handle_invalid_conversation_id, hid, hchk]
  obtain ⟨ir, hres, _⟩ := async_process_shape env opts hist input
  rw [hcid] at hres
  refine ⟨by simp [_initialize_conversation, hcid], ⟨_, hres⟩, ?_⟩
  intro r hr
  rw [hres] at hr
  cases hr
  rfl

/-- Claim C1 is false as stated: on the concrete id "bad-id", which
fails ULID validation, the code keeps the caller's id rather than
substituting the freshly generated one, and loads the non-empty stored
transcript rather than starting empty. -/
theorem C1_counterexample :
    envC.ulid_check "bad-id" = false ∧
    _initialize_conversation envC histBad inputBad = ("bad-id", [msgU]) ∧
    ("bad-id" : String) ≠ envC.ulid_now ∧
    historyGet histBad "bad-id" ≠ ([] : List Message) := by
  refine ⟨by decide, by decide, by decide, by decide⟩

/-- Witness for C1 at a concrete invalid id. -/
theorem C1_witness :
    inputBad.conversation_id = some "bad-id" ∧
    envC.ulid_check "bad-id" = false ∧
    _initialize_conversation envC histBad inputBad =
      ("bad-id", historyGet histBad "bad-id") :=
  ⟨rfl, by decide,
    (C1_invalid_id_kept envC optsC histBad inputBad "bad-id" rfl (by decide)).1⟩

theorem async_process_no_api (env : Env α β σ) (opts : EntryOptions)
    (hist : History) (input : ConversationInput)
    (h : pytruthy opts.llm_hass_api = false) :
    async_process env opts hist input =
      { result := some { response := { language := input.language, error := none },
                           conversation_id := (_initialize_conversation env hist input).1 },
        history := hist,
        requests := [],
        api_calls := [],
        render_calls := [] } := by
  simp [async_process, _setup_llm_api, h, _create_conversation_result,
    _initialize_conversation]

/-- Claim C3 (amended): with no capability API configured the turn
short-circuits after resolving the conversation id: no prompt is
rendered, zero remote completion calls are issued, the session store is
unchanged, and the result carries no error. -/
theorem C3_no_api_short_circuit (env : Env α β σ) (opts : EntryOptions)
    (hist : History) (input : ConversationInput)
    (h : pytruthy opts.llm_hass_api = false) :
    async_process env opts hist input =
      { result := some { response := { language := input.language, error := none },
                           conversation_id := (_initialize_conversation env hist input).1 },
        history := hist,
        requests := [],
        api_calls := [],
        render_calls := [] } :=
  async_process_no_api env opts hist input h

/-- Claim C3 is false as stated: with no capability API configured the
turn issues zero remote completion calls, not exactly one, while still
returning an error-free result. -/
theorem C3_counterexample :
    optsNoApi.llm_hass_api = none ∧
    (async_process envC optsNoApi ([] : History) inputBad).requests = [] ∧
    ¬ (async_process envC optsNoApi ([] : History) inputBad).requests.length = 1 ∧
    (async_process envC optsNoApi ([] : History) inputBad).result =
      some { response := { language := "en", error := none },
             conversation_id := "bad-id" } := by
  refine ⟨rfl, by decide, by decide, by decide⟩

/-- Witness for C3 at a concrete no-API configuration. -/
theorem C3_witness :
    pytruthy optsNoApi.llm_hass_api = false ∧
    (async_process envC optsNoApi histBad inputBad).requests = [] ∧
    (async_process envC optsNoApi histBad inputBad).history = histBad ∧
    (async_process envC optsNoApi histBad inputBad).render_calls = [] := by
  refine ⟨by decide, ?_, ?_, ?_⟩ <;>
    rw [C3_no_api_short_circuit envC optsNoApi histBad inputBad (by decide)]

/-- Claim C4: if the capability-set lookup raises a
`HomeAssistantError`, the turn terminates with a structured error result
carrying the resolved conversation id, zero remote completion calls are
issued, the lookup happens exactly once (no retry), and the session
store is unchanged. -/
theorem C4_capability_lookup_error (env : Env α β σ) (opts : EntryOptions)
    (hist : History) (input : ConversationInput) (apiId e : String)
    (hapi : opts.llm_hass_api = some apiId) (hne : apiId ≠ "")
    (herr : env.get_api apiId (makeLLMContext input) = Except.error e) :
    async_process env opts hist input =
      { result := some { response := { language := input.language,
                                         error := some ("unknown", "Error preparing LLM API: " ++ e) },
                           conversation_id := (_initialize_conversation env hist input).1 },
        history := hist,
        requests := [],
        api_calls := [(apiId, makeLLMContext input)],
        render_calls := [] } := by
  simp [async_process, setup_err_eq env opts input apiId e hapi hne herr,
    _create_conversation_result, _initialize_conversation]

/-- Witness for C4 at a concrete failing lookup. -/
theorem C4_witness :
    optsC.llm_hass_api = some "assist" ∧
    envApiErr.get_api "assist" (makeLLMContext inputBad) =
      Except.error "quota exceeded" ∧
    (async_process envApiErr optsC histBad inputBad).requests = [] ∧
    (async_process envApiErr optsC histBad inputBad).history = histBad ∧
    (async_process envApiErr optsC histBad inputBad).result =
      some { response := { language := "en",
                           error := some ("unknown", "Error preparing LLM API: quota exceeded") },
             conversation_id := "bad-id" } := by
  refine ⟨rfl, rfl, ?_, ?_, ?_⟩ <;>
    (rw [C4_capability_lookup_error envApiErr optsC histBad inputBad "assist"
      "quota exceeded" rfl (by decide) rfl]
     try rfl)

end OpenAIConv

namespace OpenAIConv

theorem prompt_with_api_ok (env : Env α β σ) (opts : EntryOptions)
    (input : ConversationInput) (api : LlmApiInstance α σ) (rendered : String)
    (hr : env.render (env.base_prompt ++ opts.prompt.getD env.default_instructions)
        { ha_name := env.location_name, user_name := _get_user_name env input,
          llm_context := makeLLMContext input } = Except.ok rendered) :
    _generate_prompt env opts input (some api) =
      { prompt := some (rendered ++ "\n" ++ api.api_prompt),
        error := none,
        render_calls := [(env.base_prompt ++ opts.prompt.getD env.default_instructions,
          { ha_name := env.location_name, user_name := _get_user_name env input,
            llm_context := makeLLMContext input })] } := by
  simp [_generate_prompt, hr, intercalate_pair]

theorem prompt_err_eq (env : Env α β σ) (opts : EntryOptions)
    (input : ConversationInput) (api? : Option (LlmApiInstance α σ)) (e : String)
    (hr : env.render (env.base_prompt ++ opts.prompt.getD env.default_instructions)
        { ha_name := env.location_name, user_name := _get_user_name env input,
          llm_context := makeLLMContext input } = Except.error e) :
    _generate_prompt env opts input api? =
      { prompt := none,
        error := some ("unknown", "Sorry, I had a problem with my template: " ++ e),
        render_calls := [(env.base_prompt ++ opts.prompt.getD env.default_instructions,
          { ha_name := env.location_name, user_name := _get_user_name env input,
            llm_context := makeLLMContext input })] } := by
  simp [_generate_prompt, hr]

/-- Claim C5: if the remote model call raises an `OpenAIError`, the
turn terminates immediately with a structured error result whose
user-visible message is the fixed generic string — independent of the
provider error text, which is universally quantified here — exactly one
completion request is issued (no retry), and the session store is
unchanged from before the turn. -/
theorem C5_provider_error (env : Env α β σ) (opts : EntryOptions)
    (hist : History) (input : ConversationInput) (apiId : String)
    (api : LlmApiInstance α σ) (rendered e : String)
    (hapi : opts.llm_hass_api = some apiId) (hne : apiId ≠ "")
    (hok : env.get_api apiId (makeLLMContext input) = Except.ok api)
    (hr : env.render (env.base_prompt ++ opts.prompt.getD env.default_instructions)
        { ha_name := env.location_name, user_name := _get_user_name env input,
          llm_context := makeLLMContext input } = Except.ok rendered)
    (hcl : env.client (_completion_request env opts
        (_handle_invalid_conversation_id env input)
        (historyGet hist (_handle_invalid_conversation_id env input))
        (some (api.tools.map (fun tool =>
          _format_tool env.convert tool api.custom_serializer)))) = Except.error e) :
    (async_process env opts hist input).result =
      some { response := { language := input.language,
                           error := some ("unknown",
                             "An error occurred while generating the response.") },
             conversation_id := _handle_invalid_conversation_id env input } ∧
    (async_process env opts hist input).history = hist ∧
    (async_process env opts hist input).requests =
      [_completion_request env opts (_handle_invalid_conversation_id env input)
        (historyGet hist (_handle_invalid_conversation_id env input))
        (some (api.tools.map (fun tool =>
          _format_tool env.convert tool api.custom_serializer)))] := by
  have hs := setup_ok_eq env opts input apiId api hapi hne hok
  have hp := prompt_with_api_ok env opts input api rendered hr
  refine ⟨?_, ?_, ?_⟩ <;>
    simp [async_process, hs, hp, generate_response_eq, hcl,
      _create_conversation_result, _initialize_conversation]

/-- Witness for C5 at a concrete failing client. -/
theorem C5_witness :
    envClientErr.client (_completion_request envClientErr optsC "bad-id" [msgU]
        (some (apiT.tools.map (fun tool =>
          _format_tool envClientErr.convert tool apiT.custom_serializer)))) =
      Except.error "rate limited" ∧
    (async_process envClientErr optsC histBad inputBad).result =
      some { response := { language := "en",
                           error := some ("unknown",
                             "An error occurred while generating the response.") },
             conversation_id := "bad-id" } ∧
    (async_process envClientErr optsC histBad inputBad).history = histBad := by
  have h := C5_provider_error envClientErr optsC histBad inputBad "assist" apiT
    "R[BASE;INSTR]" "rate limited" rfl (by decide) rfl rfl rfl
  exact ⟨rfl, h.1, h.2.1⟩

/-- Claim C6: the tool-calling loop is bounded by
`MAX_TOOL_ITERATIONS = 10`, and on the first successful completion the
single returned assistant message — whatever tool calls it requests —
is appended to the transcript, the transcript is persisted, and the
turn returns success; the stored transcript's last element is the
message the model returned. -/
theorem C6_first_success_returns (env : Env α β σ) (opts : EntryOptions)
    (hist : History) (input : ConversationInput) (apiId : String)
    (api : LlmApiInstance α σ) (rendered : String) (m : Message)
    (hapi : opts.llm_hass_api = some apiId) (hne : apiId ≠ "")
    (hok : env.get_api apiId (makeLLMContext input) = Except.ok api)
    (hr : env.render (env.base_prompt ++ opts.prompt.getD env.default_instructions)
        { ha_name := env.location_name, user_name := _get_user_name env input,
          llm_context := makeLLMContext input } = Except.ok rendered)
    (hcl : env.client (_completion_request env opts
        (_handle_invalid_conversation_id env input)
        (historyGet hist (_handle_invalid_conversation_id env input))
        (some (api.tools.map (fun tool =>
          _format_tool env.convert tool api.custom_serializer)))) = Except.ok m) :
    MAX_TOOL_ITERATIONS = 10 ∧
    (async_process env opts hist input).result =
      some { response := { language := input.language, error := none },
             conversation_id := _handle_invalid_conversation_id env input } ∧
    (async_process env opts hist input).history =
      historySet hist (_handle_invalid_conversation_id env input)
        (historyGet hist (_handle_invalid_conversation_id env input) ++ [m]) ∧
    historyGet (async_process env opts hist input).history
        (_handle_invalid_conversation_id env input) =
      historyGet hist (_handle_invalid_conversation_id env input) ++ [m] ∧
    (historyGet (async_process env opts hist input).history
        (_handle_invalid_conversation_id env input)).getLast? = some m ∧
    (async_process env opts hist input).requests =
      [_completion_request env opts (_handle_invalid_conversation_id env input)
        (historyGet hist (_handle_invalid_conversation_id env input))
        (some (api.tools.map (fun tool =>
          _format_tool env.convert tool api.custom_serializer)))] := by
  have hs := setup_ok_eq env opts input apiId api hapi hne hok
  have hp := prompt_with_api_ok env opts input api rendered hr
  have hh : (async_process env opts hist input).history =
      historySet hist (_handle_invalid_conversation_id env input)
        (historyGet hist (_handle_invalid_conversation_id env input) ++ [m]) := by
    simp [async_process, hs, hp, generate_response_eq, hcl,
      _create_conversation_result, _initialize_conversation]
  refine ⟨rfl, ?_, hh, ?_, ?_, ?_⟩
  · simp [async_process, hs, hp, generate_response_eq, hcl,
      _create_conversation_result, _initialize_conversation]
  · rw [hh, historyGet_historySet_self]
  · rw [hh, historyGet_historySet_self]
    simp
  · simp [async_process, hs, hp, generate_response_eq, hcl,
      _create_conversation_result, _initialize_conversation]

/-- Witness for C6 at a concrete successful turn. -/
theorem C6_witness :
    envC.client (_completion_request envC optsC "bad-id" [msgA]
        (some (apiT.tools.map (fun tool =>
          _format_tool envC.convert tool apiT.custom_serializer)))) =
      Except.ok msgA ∧
    MAX_TOOL_ITERATIONS = 10 ∧
    historyGet (async_process envC optsC histAssist inputBad).history "bad-id" =
      [msgA, msgA] ∧
    (historyGet (async_process envC optsC histAssist inputBad).history
        "bad-id").getLast? = some msgA := by
  have h := C6_first_success_returns envC optsC histAssist inputBad "assist" apiT
    "R[BASE;INSTR]" msgA rfl (by decide) rfl rfl rfl
  refine ⟨rfl, h.1, ?_, ?_⟩
  · have := h.2.2.2.1
    simpa [histAssist] using this
  · exact h.2.2.2.2.1

end OpenAIConv

namespace OpenAIConv

/-- Claim C2 (amended): the message list passed to every remote model
call equals exactly the transcript stored for the resolved conversation
id; a caller id that passes validation resolves to a freshly generated
id (so the transcript stored under the caller's id is not the one
passed), while an id failing validation resolves to itself and its
stored transcript is passed unchanged. -/
theorem C2_transcript_of_resolved_id (env : Env α β σ) (opts : EntryOptions)
    (hist : History) (input : ConversationInput) (c : String)
    (hid : input.conversation_id = some c) :
    (∀ req, req ∈ (async_process env opts hist input).requests →
        req.messages = historyGet hist (_handle_invalid_conversation_id env input)) ∧
    (env.ulid_check c = true →
        _handle_invalid_conversation_id env input = env.ulid_now) ∧
    (env.ulid_check c = false →
        _handle_invalid_conversation_id env input = c) := by
  refine ⟨?_, ?_, ?_⟩
  · intro req hreq
    obtain ⟨ir, _, hcases⟩ := async_process_shape env opts hist input
    rcases hcases with ⟨_, hreqs⟩ | ⟨t, r, _, _, hreqs⟩ | ⟨t, e, _, _, hreqs⟩ <;>
      rw [hreqs] at hreq
    · simp at hreq
    · rw [List.mem_singleton] at hreq
      subst hreq
      rfl
    · rw [List.mem_singleton] at hreq
      subst hreq
      rfl
  · intro h
    simp [_handle_invalid_conversation_id, hid, h]
  · intro h
    simp [_handle_invalid_conversation_id, hid, h]

/-- Claim C2 is false as stated: for a concrete valid ULID with a
stored one-message transcript, the message list passed to the remote
model is empty, not the stored transcript. -/
theorem C2_counterexample :
    envC.ulid_check validId = true ∧
    historyGet histValid validId = [msgU] ∧
    (async_process envC optsC histValid inputValid).requests.map
      (fun r => r.messages) = [[]] ∧
    ([] : List Message) ≠ [msgU] := by
  refine ⟨by decide, by decide, by decide, by decide⟩

/-- Witness for C2 at a concrete valid id. -/
theorem C2_witness :
    inputValid.conversation_id = some validId ∧
    envC.ulid_check validId = true ∧
    _handle_invalid_conversation_id envC inputValid = envC.ulid_now :=
  ⟨rfl, by decide,
    (C2_transcript_of_resolved_id envC optsC histValid inputValid validId rfl).2.1
      (by decide)⟩

/-- Claim C7: each of the four generation parameters sent to the
remote model equals the per-entry configured value when present and
otherwise independently falls back to its recommended default, and
every request issued by a turn carries the resolved conversation id as
its user-correlation token. -/
theorem C7_generation_parameters (env : Env α β σ) (opts : EntryOptions)
    (cid : String) (msgs : List Message)
    (tools : Option (List (ChatCompletionToolParam β))) :
    (∀ v, opts.chat_model = some v →
        (_completion_request env opts cid msgs tools).model = v) ∧
    (opts.chat_model = none →
        (_completion_request env opts cid msgs tools).model =
          env.recommended.chat_model) ∧
    (∀ v, opts.max_tokens = some v →
        (_completion_request env opts cid msgs tools).max_tokens = v) ∧
    (opts.max_tokens = none →
        (_completion_request env opts cid msgs tools).max_tokens =
          env.recommended.max_tokens) ∧
    (∀ v, opts.top_p = some v →
        (_completion_request env opts cid msgs tools).top_p = v) ∧
    (opts.top_p = none →
        (_completion_request env opts cid msgs tools).top_p =
          env.recommended.top_p) ∧
    (∀ v, opts.temperature = some v →
        (_completion_request env opts cid msgs tools).temperature = v) ∧
    (opts.temperature = none →
        (_completion_request env opts cid msgs tools).temperature =
          env.recommended.temperature) ∧
    (_completion_request env opts cid msgs tools).user = cid ∧
    (∀ hist input req, req ∈ (async_process env opts hist input).requests →
        req.user = _handle_invalid_conversation_id env input) := by
  refine ⟨?_, ?_, ?_, ?_, ?_, ?_, ?_, ?_, rfl, ?_⟩
  · intro v h; simp [_completion_request, h]
  · intro h; simp [_completion_request, h]
  · intro v h; simp [_completion_request, h]
  · intro h; simp [_completion_request, h]
  · intro v h; simp [_completion_request, h]
  · intro h; simp [_completion_request, h]
  · intro v h; simp [_completion_request, h]
  · intro h; simp [_completion_request, h]
  · intro hist input req hreq
    obtain ⟨ir, _, hcases⟩ := async_process_shape env opts hist input
    rcases hcases with ⟨_, hreqs⟩ | ⟨t, r, _, _, hreqs⟩ | ⟨t, e, _, _, hreqs⟩ <;>
      rw [hreqs] at hreq
    · simp at hreq
    · rw [List.mem_singleton] at hreq
      subst hreq
      rfl
    · rw [List.mem_singleton] at hreq
      subst hreq
      rfl

/-- Witness for C7: all four parameters configured, and all four
absent. -/
theorem C7_witness :
    (_completion_request envC optsFull "cid" [] none).model = "gpt-custom" ∧
    (_completion_request envC optsFull "cid" [] none).max_tokens = 512 ∧
    (_completion_request envC optsFull "cid" [] none).top_p = 7 / 10 ∧
    (_completion_request envC optsFull "cid" [] none).temperature = 3 / 10 ∧
    (_completion_request envC optsC "cid" [] none).model = "gpt-4o" ∧
    (_completion_request envC optsC "cid" [] none).max_tokens = 150 ∧
    (_completion_request envC optsC "cid" [] none).top_p = 1 ∧
    (_completion_request envC optsC "cid" [] none).temperature = 1 ∧
    (_completion_request envC optsC "cid" [] none).user = "cid" := by
  obtain ⟨m1, -, t1, -, p1, -, e1, -, -, -⟩ :=
    C7_generation_parameters envC optsFull "cid" [] (none : Option (List (ChatCompletionToolParam String)))
  obtain ⟨-, m2, -, t2, -, p2, -, e2, u2, -⟩ :=
    C7_generation_parameters envC optsC "cid" [] (none : Option (List (ChatCompletionToolParam String)))
  exact ⟨m1 _ rfl, t1 _ rfl, p1 _ rfl, e1 _ rfl,
    m2 rfl, t2 rfl, p2 rfl, e2 rfl, u2⟩

/-- Claim C8: `_format_tool` preserves the tool's declared name,
includes the description key only when the description is non-empty
(the key is absent, not empty, otherwise), and translates the parameter
schema with the provided serializer; `_setup_llm_api` formats every
tool with the custom serializer supplied by the capability provider. -/
theorem C8_tool_catalog_adapter {α β σ : Type} (convert : α → σ → β)
    (tool : Tool α) (ser : σ) (env : Env α β σ) (opts : EntryOptions)
    (input : ConversationInput) (apiId : String) (api : LlmApiInstance α σ) :
    (_format_tool convert tool ser).function.name = tool.name ∧
    (_format_tool convert tool ser).function.parameters =
      convert tool.parameters ser ∧
    (∀ s, tool.description = some s → s ≠ "" →
        (_format_tool convert tool ser).function.description = some s) ∧
    (tool.description = none →
        (_format_tool convert tool ser).function.description = none) ∧
    (tool.description = some "" →
        (_format_tool convert tool ser).function.description = none) ∧
    (opts.llm_hass_api = some apiId → apiId ≠ "" →
      env.get_api apiId (makeLLMContext input) = Except.ok api →
      (_setup_llm_api env opts input).tools =
        some (api.tools.map (fun t =>
          _format_tool env.convert t api.custom_serializer))) := by
  refine ⟨rfl, rfl, ?_, ?_, ?_, ?_⟩
  · intro s hs hne
    have hb : (s == "") = false := by simpa using hne
    simp [_format_tool, pytruthy, hs, hb]
  · intro hs
    simp [_format_tool, pytruthy, hs]
  · intro hs
    simp [_format_tool, pytruthy, hs]
  · intro h1 h2 h3
    rw [setup_ok_eq env opts input apiId api h1 h2 h3]

/-- Witness for C8 on concrete tools with present, absent and empty
descriptions. -/
theorem C8_witness :
    (_format_tool envC.convert toolT "SERIALIZER").function.name = "test_tool" ∧
    (_format_tool envC.convert toolT "SERIALIZER").function.description =
      some "Test tool" ∧
    (_format_tool envC.convert toolT "SERIALIZER").function.parameters =
      "SCHEMA:SERIALIZER" ∧
    (_format_tool envC.convert toolNoDesc "SERIALIZER").function.description =
      none ∧
    (_format_tool envC.convert toolEmptyDesc "SERIALIZER").function.description =
      none ∧
    (_setup_llm_api envC optsC inputBad).tools =
      some (apiT.tools.map (fun t =>
        _format_tool envC.convert t apiT.custom_serializer)) := by
  obtain ⟨n1, pa1, d1, -, -, s1⟩ :=
    C8_tool_catalog_adapter envC.convert toolT "SERIALIZER" envC optsC inputBad
      "assist" apiT
  obtain ⟨-, -, -, d2, -, -⟩ :=
    C8_tool_catalog_adapter envC.convert toolNoDesc "SERIALIZER" envC optsC
      inputBad "assist" apiT
  obtain ⟨-, -, -, -, d3, -⟩ :=
    C8_tool_catalog_adapter envC.convert toolEmptyDesc "SERIALIZER" envC optsC
      inputBad "assist" apiT
  exact ⟨n1, d1 _ rfl (by decide), by decide, d2 rfl, d3 rfl,
    s1 rfl (by decide) rfl⟩

end OpenAIConv

namespace OpenAIConv

/-- Claim C9 is false as stated: when no capability API was produced,
no prompt equal to the base instructions is built — the template would
render fine, yet `_generate_prompt` yields no prompt, and the turn
performs no render at all. -/
theorem C9_counterexample :
    envC.render ("BASE;" ++ "INSTR")
      { ha_name := "Home", user_name := none,
        llm_context := makeLLMContext inputBad } = Except.ok "R[BASE;INSTR]" ∧
    (_generate_prompt envC optsNoApi inputBad none).prompt = none ∧
    (_generate_prompt envC optsNoApi inputBad none).prompt ≠
      some "R[BASE;INSTR]" ∧
    (async_process envC optsNoApi histBad inputBad).render_calls = [] := by
  refine ⟨rfl, by decide, by decide, by decide⟩

/-- Claim C9 (amended): with a capability API present the prompt
equals the rendered base instructions and the api prompt fragment
joined by a newline; when tool setup produced no API the turn
terminates before any render (and `_generate_prompt` invoked without an
api yields no prompt rather than the base instructions); a
`TemplateError` yields a structured error result and terminates the
turn with zero completion calls. -/
theorem C9_prompt_assembly (env : Env α β σ) (opts : EntryOptions)
    (hist : History) (input : ConversationInput) (api : LlmApiInstance α σ)
    (rendered e : String) :
    (env.render (env.base_prompt ++ opts.prompt.getD env.default_instructions)
        { ha_name := env.location_name, user_name := _get_user_name env input,
          llm_context := makeLLMContext input } = Except.ok rendered →
      (_generate_prompt env opts input (some api)).prompt =
        some (rendered ++ "\n" ++ api.api_prompt)) ∧
    (env.render (env.base_prompt ++ opts.prompt.getD env.default_instructions)
        { ha_name := env.location_name, user_name := _get_user_name env input,
          llm_context := makeLLMContext input } = Except.ok rendered →
      (_generate_prompt env opts input none).prompt = none ∧
      (_generate_prompt env opts input none).error = none) ∧
    (pytruthy opts.llm_hass_api = false →
      (async_process env opts hist input).render_calls = [] ∧
      (async_process env opts hist input).requests = []) ∧
    (env.render (env.base_prompt ++ opts.prompt.getD env.default_instructions)
        { ha_name := env.location_name, user_name := _get_user_name env input,
          llm_context := makeLLMContext input } = Except.error e →
      _generate_prompt env opts input (some api) =
        { prompt := none,
          error := some ("unknown",
            "Sorry, I had a problem with my template: " ++ e),
          render_calls := [(env.base_prompt ++
              opts.prompt.getD env.default_instructions,
            { ha_name := env.location_name,
              user_name := _get_user_name env input,
              llm_context := makeLLMContext input })] }) ∧
    (∀ apiId, opts.llm_hass_api = some apiId → apiId ≠ "" →
      env.get_api apiId (makeLLMContext input) = Except.ok api →
      env.render (env.base_prompt ++ opts.prompt.getD env.default_instructions)
        { ha_name := env.location_name, user_name := _get_user_name env input,
          llm_context := makeLLMContext input } = Except.error e →
      (async_process env opts hist input).result =
        some { response := { language := input.language,
                             error := some ("unknown",
                               "Sorry, I had a problem with my template: " ++ e) },
               conversation_id := _handle_invalid_conversation_id env input } ∧
      (async_process env opts hist input).requests = []) := by
  refine ⟨?_, ?_, ?_, ?_, ?_⟩
  · intro hr
    rw [prompt_with_api_ok env opts input api rendered hr]
  · intro hr
    constructor <;> simp [_generate_prompt, hr]
  · intro h
    constructor <;> rw [async_process_no_api env opts hist input h]
  · intro hr
    exact prompt_err_eq env opts input (some api) e hr
  · intro apiId h1 h2 h3 hr
    have hs := setup_ok_eq env opts input apiId api h1 h2 h3
    have hp := prompt_err_eq env opts input (some api) e hr
    constructor <;>
      simp [async_process, hs, hp, _create_conversation_result,
        _initialize_conversation]

/-- Witness for C9: concrete failing render and concrete successful
assembly. -/
theorem C9_witness :
    envRenderErr.render ("BASE;" ++ "INSTR")
      { ha_name := "Home", user_name := none,
        llm_context := makeLLMContext inputBad } =
      Except.error "undefined variable" ∧
    (_generate_prompt envRenderErr optsC inputBad (some apiT)).error =
      some ("unknown",
        "Sorry, I had a problem with my template: undefined variable") ∧
    (async_process envRenderErr optsC histBad inputBad).requests = [] ∧
    (_generate_prompt envC optsC inputBad (some apiT)).prompt =
      some ("R[BASE;INSTR]" ++ "\n" ++ "API FRAGMENT") := by
  obtain ⟨-, -, -, perr, turn⟩ :=
    C9_prompt_assembly envRenderErr optsC histBad inputBad apiT
      "unused" "undefined variable"
  obtain ⟨pok, -, -, -, -⟩ :=
    C9_prompt_assembly envC optsC histBad inputBad apiT
      "R[BASE;INSTR]" "unused"
  refine ⟨rfl, ?_, (turn "assist" rfl (by decide) rfl rfl).2, pok rfl⟩
  rw [perr rfl]
  rfl

/-- Claim C10: `_generate_response` ignores its prompt argument,
every completion request a turn issues carries exactly the loaded
transcript (no system or user message prepended), and when every client
response is an assistant message, every transcript in the session store
still consists solely of assistant messages after the turn. -/
theorem C10_transcript_invariant (env : Env α β σ) (opts : EntryOptions)
    (hist : History) (input : ConversationInput) (ui : ConversationInput)
    (cid : String) (msgs : List Message) (pr1 pr2 : String)
    (tools : Option (List (ChatCompletionToolParam β)))
    (ir : IntentResponse) :
    (_generate_response env opts ui cid msgs pr1 tools ir hist =
      _generate_response env opts ui cid msgs pr2 tools ir hist) ∧
    (∀ req, req ∈ (async_process env opts hist input).requests →
        req.messages =
          historyGet hist (_handle_invalid_conversation_id env input)) ∧
    ((∀ req m, env.client req = Except.ok m → m.role = "assistant") →
     (∀ q, q ∈ hist → ∀ m, m ∈ q.2 → m.role = "assistant") →
     ∀ q, q ∈ (async_process env opts hist input).history →
       ∀ m, m ∈ q.2 → m.role = "assistant") := by
  refine ⟨rfl, ?_, ?_⟩
  · intro req hreq
    obtain ⟨ir0, -, hcases⟩ := async_process_shape env opts hist input
    rcases hcases with ⟨-, hreqs⟩ | ⟨t, r, -, -, hreqs⟩ | ⟨t, e, -, -, hreqs⟩ <;>
      rw [hreqs] at hreq
    · simp at hreq
    · rw [List.mem_singleton] at hreq
      subst hreq
      rfl
    · rw [List.mem_singleton] at hreq
      subst hreq
      rfl
  · intro hclient hstore q hq m hm
    obtain ⟨ir0, -, hcases⟩ := async_process_shape env opts hist input
    rcases hcases with ⟨hh, -⟩ | ⟨t, resp, hcl, hh, -⟩ | ⟨t, e, hcl, hh, -⟩
    · rw [hh] at hq
      exact hstore q hq m hm
    · rw [hh] at hq
      rcases mem_of_mem_historySet hq with hq1 | hq2
      · subst hq1
        rcases List.mem_append.mp hm with hm1 | hm2
        · obtain ⟨p, hp, hmp⟩ := mem_of_mem_historyGet hm1
          exact hstore p hp m hmp
        · rw [List.mem_singleton] at hm2
          subst hm2
          exact hclient _ _ hcl
      · exact hstore q hq2 m hm
    · rw [hh] at hq
      exact hstore q hq m hm

/-- Witness for C10 on a concrete store of assistant messages. -/
theorem C10_witness :
    (∀ req m, envC.client req = Except.ok m → m.role = "assistant") ∧
    (∀ q, q ∈ histAssist → ∀ m, m ∈ q.2 → m.role = "assistant") ∧
    (∀ q, q ∈ (async_process envC optsC histAssist inputBad).history →
       ∀ m, m ∈ q.2 → m.role = "assistant") := by
  have hclient : ∀ req m, envC.client req = Except.ok m → m.role = "assistant" := by
    intro req m h
    have hm : msgA = m := by
      simpa [envC] using h
    rw [hm.symm]
    rfl
  have hstore : ∀ q, q ∈ histAssist → ∀ m, m ∈ q.2 → m.role = "assistant" := by
    intro q hq m hm
    simp [histAssist] at hq
    subst hq
    simp at hm
    subst hm
    rfl
  exact ⟨hclient, hstore,
    (C10_transcript_invariant envC optsC histAssist inputBad inputBad "x" [] "p"
        "p2" none { language := "en", error := none }).2.2 hclient hstore⟩

end OpenAIConv
